import Mathlib

/-!
Verification of the per-group presentation generator
(`edit_pres.py` and `generate_ppt.py`).

The two Python source files are shallowly embedded below.  Slide
presentations are modelled as lists of slides, each slide a list of shapes;
pandas data frames as a header list plus a list of rows of values; fallible
operations (list indexing, dict/column lookup, summing a non-numeric
column) return `Except PErr`.  Numeric cell values are modelled as exact
rationals.  The exact digit strings Python produces for `str(value)` are
immaterial to every property proved here (both the embedded code and the
statements use the same rendering function), so `pyStr` renders rationals
in a simple exact form.
-/

/-- A tabular cell value: pandas cells are either strings (e.g. the `group`
column) or numbers (modelled as exact rationals). -/
inductive Value where
  | str (s : String)
  | num (q : ℚ)
deriving DecidableEq, Repr

/-- Python `str(value)` for a cell value.  The precise digit rendering of
Python is immaterial to every claim (both the embedding and the statements
apply this same function), so rationals are rendered exactly. -/
def pyStr : Value → String
  | .str s => s
  | .num q => if q.den = 1 then toString q.num else toString q.num ++ "/" ++ toString q.den

/-- Round the fraction `n / d` (with `d > 0`) to the nearest integer, ties
to even (the rounding used by Python `format`), in pure integer
arithmetic: `f` is the floor and `t / d` twice the remainder. -/
def roundHalfEven (n d : ℤ) : ℤ :=
  let f : ℤ := Int.fdiv n d
  let t : ℤ := 2 * (n - f * d)
  if t < d then f
  else if d < t then f + 1
  else if f % 2 = 0 then f else f + 1

/-- Python `"{:.1f}".format(x)`: format with exactly one fractional digit,
rounding `10 * q = (10 * q.num) / q.den` to the nearest integer. -/
def format1f (q : ℚ) : String :=
  let n : ℤ := roundHalfEven (q.num * 10) q.den
  let sign := if n < 0 then "-" else ""
  let a : ℕ := n.natAbs
  sign ++ toString (a / 10) ++ "." ++ toString (a % 10)

/-- The runtime errors the scripts can raise: list/array index out of
range, dict/column key lookup failure, a `TypeError` from summing a
non-numeric column, a placeholder lookup that matches no shape
(`title[0]` on an empty filter result: an `IndexError`, carrying the
marker here for specification clarity), a degenerate `squeeze` (zero or
several rows matched the group; undefined in the source per the spec's
open question, modelled as an explicit error), and a missing input file. -/
inductive PErr where
  | indexError
  | keyError (k : String)
  | typeError
  | noMatch (marker : String)
  | squeezeAmbiguous
  | fileNotFound
deriving DecidableEq, Repr

/-- A pandas data frame: named columns and a list of rows (each row lists
the values in column order). -/
structure DataFrame where
  columns : List String
  rows : List (List Value)
deriving DecidableEq, Repr

/-- `df.iloc[i, j]` — purely positional access, raising on out-of-range. -/
def iloc (df : DataFrame) (i j : ℕ) : Except PErr Value :=
  match df.rows.get? i with
  | none => .error .indexError
  | some r =>
    match r.get? j with
    | none => .error .indexError
    | some v => .ok v

/-- One step of Python `sum`: add a cell value to a numeric accumulator;
a string cell raises `TypeError` (`0 + str`). -/
def addValue (acc : ℚ) : Value → Except PErr ℚ
  | .num q => .ok (acc + q)
  | .str _ => .error .typeError

/-- `sum(df.iloc[:, j])` — sum column `j` over all rows (line 73 of
`edit_pres.py` sums the whole column of `sales_data`). -/
def sumColumn (df : DataFrame) (j : ℕ) : Except PErr ℚ :=
  df.rows.foldlM (fun acc r =>
    match r.get? j with
    | none => .error .indexError
    | some v => addValue acc v) 0

/-- The cell grid of a pptx table shape. -/
structure TableGrid where
  rows : List (List String)
deriving DecidableEq, Repr

/-- Read cell `(i, j)` of a table grid. -/
def getCellT (g : TableGrid) (i j : ℕ) : Option String :=
  (g.rows.get? i).bind fun r => r.get? j

/-- `table.cell(i, j).text = v` — raises `IndexError` when out of range. -/
def setCellT (g : TableGrid) (i j : ℕ) (v : String) : Except PErr TableGrid :=
  match g.rows.get? i with
  | none => .error .indexError
  | some r =>
    if j < r.length then .ok ⟨g.rows.set i (r.set j v)⟩ else .error .indexError

/-- A pending table-cell write: target row, target column, and the
computation of the string to write (evaluated right before the write,
as in the source loops). -/
abbrev Write := ℕ × ℕ × Except PErr String

/-- Execute a list of cell writes in order, as the source's `for` loops do:
evaluate the value, then store it, propagating the first error. -/
def runWrites : TableGrid → List Write → Except PErr TableGrid
  | g, [] => .ok g
  | g, w :: ws =>
    match w.2.2 with
    | .error e => .error e
    | .ok v =>
      match setCellT g w.1 w.2.1 v with
      | .error e => .error e
      | .ok g' => runWrites g' ws

/-- The writes emitted by `for k in range(0, n)` in order: block `f 0`,
then `f 1`, ..., then `f (n-1)`. -/
def rangeWrites (f : ℕ → List Write) : ℕ → List Write
  | 0 => []
  | n + 1 => rangeWrites f n ++ f n

/-- The writes of one row-loop `for j in range(0, m)` targeting row `r`. -/
def rowWrites (r m : ℕ) (ev : ℕ → Except PErr String) : List Write :=
  rangeWrites (fun j => [(r, j, ev j)]) m

/-- Heading value (line 64): `"Product " + sales_data.columns.values[j]`. -/
def headerEv (dt : DataFrame) (j : ℕ) : Except PErr String :=
  match dt.columns.get? j with
  | some c => .ok ("Product " ++ c)
  | none => .error .indexError

/-- Data-cell value (line 69): `str(sales_data.iloc[i-1, j])` with `i = k+1`. -/
def dataEv (dt : DataFrame) (k j : ℕ) : Except PErr String :=
  (iloc dt k j).map pyStr

/-- Totals value (line 73): `"{:.1f}".format(sum(sales_data.iloc[:, j]))`. -/
def totalsEv (dt : DataFrame) (j : ℕ) : Except PErr String :=
  (sumColumn dt j).map format1f

/-- All table writes of lines 62–73 in source order: the heading loop over
row 0, the data loops filling rows 1–8 from data rows 0–7, then the totals
loop over row 9. -/
def tableWrites (dt : DataFrame) : List Write :=
  rowWrites 0 5 (headerEv dt)
    ++ rangeWrites (fun k => rowWrites (k + 1) 5 (dataEv dt k)) 8
    ++ rowWrites 9 5 (totalsEv dt)

/-- A chart embedded in a slide: its plotted categories and series and its
chart title. -/
structure ChartShape where
  categories : List String
  series : List (String × List Value)
  title : String
deriving DecidableEq, Repr

/-- `CategoryChartData`: the mutable chart-data builder of python-pptx. -/
structure ChartData where
  categories : List String
  series : List (String × List Value)
deriving DecidableEq, Repr

/-- `chart_data.add_series(name, values)` appends a series. -/
def addSeries (cd : ChartData) (name : String) (vals : List Value) : ChartData :=
  { cd with series := cd.series ++ [(name, vals)] }

/-- `chart.replace_data(chart_data)`: full replacement of the chart's
categories and series with the builder's current contents; the chart title
is a separate element and is untouched. -/
def replaceData (c : ChartShape) (cd : ChartData) : ChartShape :=
  { categories := cd.categories, series := cd.series, title := c.title }

/-- A shape on a slide: a text-frame shape, a chart graphic frame, a table
graphic frame, or anything else (picture, ...).  In python-pptx these are
mutually exclusive: `has_text_frame`, `has_chart` and `has_table` single
out the first three cases. -/
inductive Shape where
  | text (t : String)
  | chart (c : ChartShape)
  | table (g : TableGrid)
  | other
deriving DecidableEq, Repr

/-- Whether the first list is a prefix of the second. -/
def isPrefixB : List Char → List Char → Bool
  | [], _ => true
  | _ :: _, [] => false
  | a :: as, b :: bs => a == b && isPrefixB as bs

/-- Whether the first list occurs contiguously inside the second
(Python `text.find(pat) != -1`). -/
def isInfixB (pat : List Char) : List Char → Bool
  | [] => isPrefixB pat []
  | c :: tl => isPrefixB pat (c :: tl) || isInfixB pat tl

/-- `s.has_text_frame and s.text.find(marker) != -1`. -/
def textMatches (marker : String) : Shape → Bool
  | .text t => isInfixB marker.data t.data
  | _ => false

/-- The chart payload of a shape, when it is a chart. -/
def chartOf : Shape → Option ChartShape
  | .chart c => some c
  | _ => none

/-- The table payload of a shape, when it is a table. -/
def tableOf : Shape → Option TableGrid
  | .table g => some g
  | _ => none

/-- `[s for s in shapes if s.has_chart]`, projected to the chart payloads. -/
def chartsOf (shapes : List Shape) : List ChartShape :=
  shapes.filterMap chartOf

/-- The grid of the first table shape on a slide
(`[s for s in shapes if s.has_table][0]`). -/
def firstTable (shapes : List Shape) : Option TableGrid :=
  shapes.findSome? tableOf

/-- Lines 18–19 / 22–23 / 29–30 / 56–57: filter the slide's shapes for text
frames containing `marker` and set the whole text of the first one;
`title[0]` on an empty filter raises (modelled as `noMatch marker`). -/
def setFirstText (shapes : List Shape) (marker t : String) : Except PErr (List Shape) :=
  match shapes with
  | [] => .error (.noMatch marker)
  | s :: rest =>
    if textMatches marker s then .ok (.text t :: rest)
    else (setFirstText rest marker t).map (s :: ·)

/-- `charts[n]` for `charts = [s for s in shapes if s.has_chart]`;
raises `IndexError` when there are not enough charts. -/
def nthChartE (shapes : List Shape) (n : ℕ) : Except PErr ChartShape :=
  match (chartsOf shapes).get? n with
  | some c => .ok c
  | none => .error .indexError

/-- Mutate the `n`-th chart shape of a slide in place. -/
def updateNthChart (shapes : List Shape) (n : ℕ) (f : ChartShape → ChartShape) :
    Except PErr (List Shape) :=
  match shapes, n with
  | [], _ => .error .indexError
  | .chart c :: rest, 0 => .ok (.chart (f c) :: rest)
  | .chart c :: rest, n + 1 => (updateNthChart rest n f).map (Shape.chart c :: ·)
  | s :: rest, n => (updateNthChart rest n f).map (s :: ·)

/-- Mutate the grid of `table[0]` (first table shape) in place; raises
`IndexError` when the slide has no table shape, and propagates errors of
the grid transformation (cell writes). -/
def updateFirstTable (shapes : List Shape) (f : TableGrid → Except PErr TableGrid) :
    Except PErr (List Shape) :=
  match shapes with
  | [] => .error .indexError
  | .table g :: rest => (f g).map (fun g' => Shape.table g' :: rest)
  | s :: rest => (updateFirstTable rest f).map (s :: ·)

/-- A slide: its list of shapes, in shape order. -/
structure Slide where
  shapes : List Shape
deriving DecidableEq, Repr

/-- A presentation: its list of slides. -/
structure Pres where
  slides : List Slide
deriving DecidableEq, Repr

/-- `pres.slides[n]` — raises `IndexError` when absent. -/
def getSlideE (p : Pres) (n : ℕ) : Except PErr Slide :=
  match p.slides.get? n with
  | some s => .ok s
  | none => .error .indexError

/-- Replace slide `n`'s shapes (the in-place mutations of one slide,
batched). -/
def setSlideShapes (p : Pres) (n : ℕ) (sh : List Shape) : Pres :=
  ⟨p.slides.set n ⟨sh⟩⟩

/-- A selected chart row, as the pandas `Series` produced by `squeeze()`:
column labels paired with the row's values. -/
abbrev Row := List (String × Value)

/-- Whether a chart-data row's `group` cell equals the given group id
(`data_chart["group"] == group`, first `group` column positionally). -/
def groupMatches (dc : DataFrame) (g : String) (r : List Value) : Bool :=
  (dc.columns.zip r).lookup "group" == some (.str g)

/-- Line 8: `data_chart[data_chart["group"] == group].squeeze()`.  A missing
`group` column raises `KeyError`.  When exactly one row matches, `squeeze`
yields that row as a `Series`.  When zero or several rows match the source
behaviour is undefined (spec §4.2's open question: `squeeze` returns a
DataFrame and downstream code misbehaves); modelled as an explicit error. -/
def squeezeGroup (dc : DataFrame) (g : String) : Except PErr Row :=
  if "group" ∈ dc.columns then
    match dc.rows.filter (groupMatches dc g) with
    | [r] => .ok (dc.columns.zip r)
    | _ => .error .squeezeAmbiguous
  else .error (.keyError "group")

/-- `series[[c1, c2, c3, c4]].values` — look the named columns up in the
selected row, in the requested order; a missing label raises `KeyError`. -/
def seriesVals (row : Row) : List String → Except PErr (List Value)
  | [] => .ok []
  | c :: cs =>
    match row.lookup c with
    | some v => (seriesVals row cs).map (v :: ·)
    | none => .error (.keyError c)

/-- Lines 15–23: the title slide — overwrite the first shape containing
"Presentation title", then (on the mutated shapes) the first containing
"Subtitle". -/
def stageTitle (g : String) (shapes : List Shape) : Except PErr (List Shape) := do
  let shapes ← setFirstText shapes "Presentation title" ("Presentation for Group " ++ g)
  setFirstText shapes "Subtitle" ("Financial Information for Group " ++ g)

/-- Lines 26–50: the chart slide.  Overwrite the "Chart" title shape; then
build one `CategoryChartData` for the bar chart (4 categories, 3 series)
and replace `charts[0]`'s data and title; then — reusing the same builder
object, as the source does — reassign its categories to the quarters, add
one more series from the pie columns, and replace `charts[1]`'s data and
title.  `charts[0]` / `charts[1]` are looked up before the series values,
in source order. -/
def stageCharts (g : String) (row : Row) (shapes : List Shape) : Except PErr (List Shape) := do
  let shapes ← setFirstText shapes "Chart" ("Financial Results Summary for Group " ++ g)
  let _ ← nthChartE shapes 0
  let cd : ChartData :=
    { categories := (List.range 4).map (fun i => "Category " ++ toString (i + 1)), series := [] }
  let v1 ← seriesVals row ["cat1_1", "cat2_1", "cat3_1", "cat4_1"]
  let cd := addSeries cd "Series 1" v1
  let v2 ← seriesVals row ["cat1_2", "cat2_2", "cat3_2", "cat4_2"]
  let cd := addSeries cd "Series 2" v2
  let v3 ← seriesVals row ["cat1_3", "cat2_3", "cat3_3", "cat4_3"]
  let cd := addSeries cd "Series 3" v3
  let shapes ← updateNthChart shapes 0 (fun c => replaceData c cd)
  let shapes ← updateNthChart shapes 0
    (fun c => { c with title := "Sales by Category: Group " ++ g })
  let _ ← nthChartE shapes 1
  let cd := { cd with categories := ["1st Qtr", "2nd Qtr", "3rd Qtr", "4th Qtr"] }
  let vp ← seriesVals row ["pie1", "pie2", "pie3", "pie4"]
  let cd := addSeries cd "Series 1" vp
  let shapes ← updateNthChart shapes 1 (fun c => replaceData c cd)
  let shapes ← updateNthChart shapes 1
    (fun c => { c with title := "Sales by Quarter: Group " ++ g })
  pure shapes

/-- Lines 53–73: the table slide — overwrite the "Table" title shape, then
run the three cell-write loops on `table[0]`'s grid. -/
def stageTable (g : String) (dt : DataFrame) (shapes : List Shape) : Except PErr (List Shape) := do
  let shapes ← setFirstText shapes "Table" ("Results Table for Group " ++ g)
  updateFirstTable shapes (fun grid => runWrites grid (tableWrites dt))

/-- `edit_pres` up to (but not including) `pres.save` — lines 5–74.
`loaded` stands for `Presentation(input_file)` (line 12), which in the
source runs after the group squeeze of line 8; passing it as an `Except`
preserves that evaluation order.  On success, returns the fully edited
presentation and the line-77 message. -/
def edit_pres_core (group : String) (data_chart data_table : DataFrame)
    (loaded : Except PErr Pres) : Except PErr (Pres × String) := do
  let row ← squeezeGroup data_chart group
  let pres ← loaded
  let slide0 ← getSlideE pres 0
  let sh0 ← stageTitle group slide0.shapes
  let pres := setSlideShapes pres 0 sh0
  let slide1 ← getSlideE pres 1
  let sh1 ← stageCharts group row slide1.shapes
  let pres := setSlideShapes pres 1 sh1
  let slide2 ← getSlideE pres 2
  let sh2 ← stageTable group data_table slide2.shapes
  let pres := setSlideShapes pres 2 sh2
  pure (pres, "Successfully saved version " ++ group ++ "!")

/-- The file system: presentation files by path. -/
def FS : Type := String → Option Pres

/-- `Presentation(input_file)` — read a presentation file. -/
def readFS (fs : FS) (path : String) : Except PErr Pres :=
  match fs path with
  | some p => .ok p
  | none => .error .fileNotFound

/-- `pres.save(output_file)` — write (create or overwrite) the output. -/
def writeFS (fs : FS) (path : String) (p : Pres) : FS :=
  fun q => if q = path then some p else fs q

/-- Whether an `Except` is an error. -/
def isErr : Except PErr α → Bool
  | .error _ => true
  | .ok _ => false

/-- The whole of `edit_pres` including load and save: compute the edited
presentation, then — only on success — save it to `output_file` (line 76,
the function's final statement); an error propagates out before any write,
leaving the file system untouched. -/
def edit_presFS (group : String) (data_chart data_table : DataFrame)
    (input_file output_file : String) (fs : FS) : FS × Except PErr String :=
  match edit_pres_core group data_chart data_table (readFS fs input_file) with
  | .error e => (fs, .error e)
  | .ok (p, msg) => (writeFS fs output_file p, .ok msg)

/-- The text of cell `(i, j)` of the first table shape on slide 2 of a
presentation (the output table of the table slide). -/
def outputCell (p : Pres) (i j : ℕ) : Option String :=
  (p.slides.get? 2).bind fun s => (firstTable s.shapes).bind fun g => getCellT g i j

/-- The `n`-th chart of slide `slideIdx` of a presentation. -/
def chartShapeAt (p : Pres) (slideIdx n : ℕ) : Option ChartShape :=
  (p.slides.get? slideIdx).bind fun s => (chartsOf s.shapes).get? n

/-- `dataframes['chart_df'].group.values` as strings: the `group` column of
the chart dataset (`generate_ppt.py` line 22).  A missing column raises;
a non-string group id would fail at `'table_' + group` (`TypeError`). -/
def groupValues (df : DataFrame) : Except PErr (List String) :=
  match df.columns.indexOf? "group" with
  | none => .error (.keyError "group")
  | some i =>
    df.rows.mapM fun r =>
      match r.get? i with
      | some (.str s) => .ok s
      | some _ => .error .typeError
      | none => .error .indexError

/-- One iteration of the driver loop (`generate_ppt.py` lines 22–25): look
up the group's detail table `table_<group>` in the loaded dataframes — a
missing key raises `KeyError` before anything is generated — then run
`edit_pres` on the fixed template and the group's output path. -/
def processGroup (dfs : List (String × DataFrame)) (cdf : DataFrame) (g : String)
    (fs : FS) : FS × Except PErr String :=
  match dfs.lookup ("table_" ++ g) with
  | none => (fs, .error (.keyError ("table_" ++ g)))
  | some tdf =>
    edit_presFS g cdf tdf "templates/ppt-template.pptx"
      ("outputs/results_group_" ++ g ++ ".pptx") fs

/-- The driver loop over the group values; the first unhandled error aborts
the batch. -/
def genLoop (dfs : List (String × DataFrame)) (cdf : DataFrame) :
    List String → FS → FS × Except PErr (List String)
  | [], fs => (fs, .ok [])
  | g :: rest, fs =>
    match processGroup dfs cdf g fs with
    | (fs', .error e) => (fs', .error e)
    | (fs', .ok m) =>
      match genLoop dfs cdf rest fs' with
      | (fs'', .error e) => (fs'', .error e)
      | (fs'', .ok ms) => (fs'', .ok (m :: ms))

/-- `generate_ppt.py` lines 22–25: iterate the chart dataset's group values
and generate one presentation per group. -/
def generate_ppt (dfs : List (String × DataFrame)) (fs : FS) :
    FS × Except PErr (List String) :=
  match dfs.lookup "chart_df" with
  | none => (fs, .error (.keyError "chart_df"))
  | some cdf =>
    match groupValues cdf with
    | .error e => (fs, .error e)
    | .ok gs => genLoop dfs cdf gs fs

/-! ## A concrete worked example

One group "A", a chart row with distinct values per column, an 8 × 5 detail
table of all ones, and a three-slide template matching the fixed layout the
filler assumes.  Used to evaluate the embedded program end to end. -/

/-- An 8-row, 5-column detail table of all `1`s, columns `P X Y Z W`. -/
def sampleTableDF : DataFrame :=
  ⟨["P", "X", "Y", "Z", "W"], List.replicate 8 [.num 1, .num 1, .num 1, .num 1, .num 1]⟩

/-- The sample chart row's values for group "A". -/
def sampleRowVals : List Value :=
  [.str "A", .num 10, .num 20, .num 30, .num 40,
   .num 11, .num 21, .num 31, .num 41,
   .num 12, .num 22, .num 32, .num 42,
   .num 1, .num 2, .num 3, .num 4]

/-- A chart dataset with exactly one row, for group "A". -/
def sampleChartDF : DataFrame :=
  ⟨["group", "cat1_1", "cat2_1", "cat3_1", "cat4_1",
    "cat1_2", "cat2_2", "cat3_2", "cat4_2",
    "cat1_3", "cat2_3", "cat3_3", "cat4_3",
    "pie1", "pie2", "pie3", "pie4"],
   [sampleRowVals]⟩

/-- The `Series` the squeeze of line 8 yields on the sample chart data. -/
def sampleRow : Row := sampleChartDF.columns.zip sampleRowVals

/-- The template table's empty 10 × 5 grid. -/
def blankGrid : TableGrid := ⟨List.replicate 10 (List.replicate 5 "")⟩

/-- A template with the fixed layout: title/subtitle slide, chart slide
with a title shape and two placeholder charts, table slide with a title
shape and one 10 × 5 table. -/
def samplePres : Pres :=
  ⟨[⟨[.text "Presentation title", .text "Subtitle"]⟩,
    ⟨[.text "Chart Title",
      .chart ⟨["c"], [("ph", [.num 0])], "ph title"⟩,
      .chart ⟨["c2"], [("ph2", [.num 5])], "ph2 title"⟩]⟩,
    ⟨[.text "Table Title", .table blankGrid]⟩]⟩

/-- The presentation the embedded `edit_pres` produces on the sample
inputs.  Note the pie chart (second chart of slide 1): the source reuses
the bar chart's `CategoryChartData` object, so the pie receives the three
bar series followed by the appended pie series. -/
def sampleOutPres : Pres :=
  ⟨[⟨[.text "Presentation for Group A", .text "Financial Information for Group A"]⟩,
    ⟨[.text "Financial Results Summary for Group A",
      .chart ⟨["Category 1", "Category 2", "Category 3", "Category 4"],
        [("Series 1", [.num 10, .num 20, .num 30, .num 40]),
         ("Series 2", [.num 11, .num 21, .num 31, .num 41]),
         ("Series 3", [.num 12, .num 22, .num 32, .num 42])],
        "Sales by Category: Group A"⟩,
      .chart ⟨["1st Qtr", "2nd Qtr", "3rd Qtr", "4th Qtr"],
        [("Series 1", [.num 10, .num 20, .num 30, .num 40]),
         ("Series 2", [.num 11, .num 21, .num 31, .num 41]),
         ("Series 3", [.num 12, .num 22, .num 32, .num 42]),
         ("Series 1", [.num 1, .num 2, .num 3, .num 4])],
        "Sales by Quarter: Group A"⟩]⟩,
    ⟨[.text "Results Table for Group A",
      .table ⟨[["Product P", "Product X", "Product Y", "Product Z", "Product W"],
               ["1", "1", "1", "1", "1"],
               ["1", "1", "1", "1", "1"],
               ["1", "1", "1", "1", "1"],
               ["1", "1", "1", "1", "1"],
               ["1", "1", "1", "1", "1"],
               ["1", "1", "1", "1", "1"],
               ["1", "1", "1", "1", "1"],
               ["1", "1", "1", "1", "1"],
               ["8.0", "8.0", "8.0", "8.0", "8.0"]]⟩]⟩]⟩

/-- A file system holding only the template at the driver's template path. -/
def sampleFS : FS :=
  fun p => if p = "templates/ppt-template.pptx" then some samplePres else none

/-- The loaded dataframes of the driver, as `generate_ppt.py` builds them
from `data/chart_df.csv` and `data/table_A.csv`. -/
def sampleDFs : List (String × DataFrame) :=
  [("chart_df", sampleChartDF), ("table_A", sampleTableDF)]

/-- An empty data frame (no columns, no rows). -/
def emptyDF : DataFrame := ⟨[], []⟩

/-- An empty file system. -/
def fsEmpty : FS := fun _ => none

/-! ## Helper lemmas -/

unseal Rat.add in
theorem sample_run_eq :
    edit_pres_core "A" sampleChartDF sampleTableDF (.ok samplePres)
      = .ok (sampleOutPres, "Successfully saved version A!") := by rfl

theorem okBind {α β : Type} (a : α) (f : α → Except PErr β) :
    (Except.ok a >>= f) = f a := rfl

theorem errBind {α β : Type} (e : PErr) (f : α → Except PErr β) :
    ((Except.error e : Except PErr α) >>= f) = .error e := rfl

theorem exbind_ok {α β : Type} {x : Except PErr α} {f : α → Except PErr β} {b : β}
    (h : x >>= f = .ok b) : ∃ a, x = .ok a ∧ f a = .ok b := by
  cases x with
  | error e => rw [errBind] at h; exact absurd h (by simp)
  | ok a => exact ⟨a, rfl, by rwa [okBind] at h⟩

theorem lget_set_self {α : Type} {l : List α} {i : ℕ} {a : α} (h : i < l.length) :
    (l.set i a).get? i = some a := by
  induction l generalizing i with
  | nil => simp at h
  | cons x xs ih =>
    cases i with
    | zero => rfl
    | succ k => exact ih (Nat.lt_of_succ_lt_succ h)

theorem lget_set_ne {α : Type} {l : List α} {i k : ℕ} {a : α} (h : i ≠ k) :
    (l.set i a).get? k = l.get? k := by
  induction l generalizing i k with
  | nil => simp
  | cons x xs ih =>
    cases i with
    | zero =>
      cases k with
      | zero => exact absurd rfl h
      | succ m => rfl
    | succ n =>
      cases k with
      | zero => rfl
      | succ m => exact ih (fun hc => h (by rw [hc]))

theorem lget_append_len {α : Type} (pre : List α) (x : α) (rest : List α) :
    (pre ++ x :: rest).get? pre.length = some x := by
  induction pre with
  | nil => rfl
  | cons a l ih => exact ih

theorem lget_append_ne {α : Type} (pre : List α) (x y : α) (rest : List α) {k : ℕ}
    (h : k ≠ pre.length) :
    (pre ++ x :: rest).get? k = (pre ++ y :: rest).get? k := by
  induction pre generalizing k with
  | nil =>
    cases k with
    | zero => exact absurd rfl h
    | succ m => rfl
  | cons a l ih =>
    cases k with
    | zero => rfl
    | succ m => exact ih (fun hc => h (by simp [hc]))

theorem textMatches_text {marker : String} {s : Shape} (h : textMatches marker s = true) :
    ∃ t, s = .text t := by
  cases s with
  | text t => exact ⟨t, rfl⟩
  | chart c => simp [textMatches] at h
  | table g => simp [textMatches] at h
  | other => simp [textMatches] at h

theorem setFirstText_none {shapes : List Shape} {marker t : String}
    (h : shapes.filter (textMatches marker) = []) :
    setFirstText shapes marker t = .error (.noMatch marker) := by
  induction shapes with
  | nil => rfl
  | cons s rest ih =>
    rw [List.filter_cons] at h
    by_cases hm : textMatches marker s = true
    · simp [hm] at h
    · rw [Bool.not_eq_true] at hm
      rw [hm] at h
      simp only [setFirstText, hm, Bool.false_eq_true, if_false, ih h]
      rfl

theorem setFirstText_cons (s : Shape) (rest : List Shape) (marker t : String) :
    setFirstText (s :: rest) marker t =
      if textMatches marker s then .ok (.text t :: rest)
      else (setFirstText rest marker t).map (s :: ·) := rfl

theorem setFirstText_first {pre : List Shape} {s₀ : Shape} {rest : List Shape}
    {marker t : String}
    (hpre : ∀ s ∈ pre, textMatches marker s = false)
    (hs : textMatches marker s₀ = true) :
    setFirstText (pre ++ s₀ :: rest) marker t = .ok (pre ++ Shape.text t :: rest) := by
  induction pre with
  | nil => simp [setFirstText_cons, hs]
  | cons a l ih =>
    have ha : textMatches marker a = false := hpre a (by simp)
    have ih' := ih (fun s hm => hpre s (by simp [hm]))
    rw [List.cons_append, setFirstText_cons, ha, List.cons_append]
    simp only [Bool.false_eq_true, if_false, ih']
    rfl

theorem setFirstText_ok_decomp {shapes shapes' : List Shape} {marker t : String}
    (h : setFirstText shapes marker t = .ok shapes') :
    ∃ pre s₀ rest, shapes = pre ++ s₀ :: rest
      ∧ (∀ s ∈ pre, textMatches marker s = false)
      ∧ textMatches marker s₀ = true
      ∧ shapes' = pre ++ Shape.text t :: rest := by
  induction shapes generalizing shapes' with
  | nil => exact absurd h (by simp [setFirstText])
  | cons s rest ih =>
    by_cases hm : textMatches marker s = true
    · refine ⟨[], s, rest, by simp, by simp, hm, ?_⟩
      simp only [setFirstText, hm, if_true] at h
      cases h
      simp
    · rw [Bool.not_eq_true] at hm
      simp only [setFirstText, hm, Bool.false_eq_true, if_false] at h
      cases hrec : setFirstText rest marker t with
      | error e => rw [hrec] at h; exact absurd h (by simp [Except.map])
      | ok l =>
        rw [hrec] at h
        simp only [Except.map] at h
        cases h
        obtain ⟨pre, s₀, rest', he, hpre, hs₀, hl⟩ := ih hrec
        exact ⟨s :: pre, s₀, rest', by simp [he], by
          intro x hx
          rcases List.mem_cons.mp hx with hx | hx
          · rw [hx]; exact hm
          · exact hpre x hx, hs₀, by simp [hl]⟩

theorem chartsOf_append (a b : List Shape) :
    chartsOf (a ++ b) = chartsOf a ++ chartsOf b :=
  List.filterMap_append a b chartOf

theorem setFirstText_chartsOf {shapes shapes' : List Shape} {marker t : String}
    (h : setFirstText shapes marker t = .ok shapes') :
    chartsOf shapes' = chartsOf shapes := by
  obtain ⟨pre, s₀, rest, he, _, hs₀, hl⟩ := setFirstText_ok_decomp h
  obtain ⟨t₀, ht₀⟩ := textMatches_text hs₀
  subst he hl ht₀
  simp [chartsOf_append, chartsOf, List.filterMap_cons, chartOf]

theorem firstTable_first {pre : List Shape} {g : TableGrid} {rest : List Shape}
    (hpre : ∀ s ∈ pre, tableOf s = none) :
    firstTable (pre ++ Shape.table g :: rest) = some g := by
  induction pre with
  | nil => simp [firstTable, List.findSome?_cons, tableOf]
  | cons a l ih =>
    have ha : tableOf a = none := hpre a (by simp)
    have ih' := ih (fun s hm => hpre s (by simp [hm]))
    simpa [firstTable, List.findSome?_cons, ha] using ih'

theorem firstTable_mid (pre rest : List Shape) {x y : Shape}
    (hx : tableOf x = none) (hy : tableOf y = none) :
    firstTable (pre ++ x :: rest) = firstTable (pre ++ y :: rest) := by
  induction pre with
  | nil => simp [firstTable, List.findSome?_cons, hx, hy]
  | cons a l ih =>
    simp only [List.cons_append, firstTable, List.findSome?_cons] at ih ⊢
    rw [ih]

theorem setFirstText_firstTable {shapes shapes' : List Shape} {marker t : String}
    (h : setFirstText shapes marker t = .ok shapes') :
    firstTable shapes' = firstTable shapes := by
  obtain ⟨pre, s₀, rest, he, _, hs₀, hl⟩ := setFirstText_ok_decomp h
  obtain ⟨t₀, ht₀⟩ := textMatches_text hs₀
  subst he hl ht₀
  exact firstTable_mid pre rest rfl rfl

theorem updateFirstTable_ok {shapes shapes' : List Shape}
    {f : TableGrid → Except PErr TableGrid}
    (h : updateFirstTable shapes f = .ok shapes') :
    ∃ pre g g' rest, shapes = pre ++ Shape.table g :: rest
      ∧ (∀ s ∈ pre, tableOf s = none)
      ∧ f g = .ok g'
      ∧ shapes' = pre ++ Shape.table g' :: rest := by
  induction shapes generalizing shapes' with
  | nil => exact absurd h (by simp [updateFirstTable])
  | cons s rest ih =>
    cases s with
    | table g =>
      simp only [updateFirstTable] at h
      cases hf : f g with
      | error e => rw [hf] at h; exact absurd h (by simp [Except.map])
      | ok g' =>
        rw [hf] at h
        simp only [Except.map] at h
        cases h
        exact ⟨[], g, g', rest, by simp, by simp, hf, by simp⟩
    | text t₀ =>
      simp only [updateFirstTable] at h
      cases hrec : updateFirstTable rest f with
      | error e => rw [hrec] at h; exact absurd h (by simp [Except.map])
      | ok l =>
        rw [hrec] at h
        simp only [Except.map] at h
        cases h
        obtain ⟨pre, g, g', rest', he, hpre, hf, hl⟩ := ih hrec
        refine ⟨Shape.text t₀ :: pre, g, g', rest', by simp [he], ?_, hf, by simp [hl]⟩
        intro x hx
        rcases List.mem_cons.mp hx with hx | hx
        · rw [hx]; rfl
        · exact hpre x hx
    | chart c =>
      simp only [updateFirstTable] at h
      cases hrec : updateFirstTable rest f with
      | error e => rw [hrec] at h; exact absurd h (by simp [Except.map])
      | ok l =>
        rw [hrec] at h
        simp only [Except.map] at h
        cases h
        obtain ⟨pre, g, g', rest', he, hpre, hf, hl⟩ := ih hrec
        refine ⟨Shape.chart c :: pre, g, g', rest', by simp [he], ?_, hf, by simp [hl]⟩
        intro x hx
        rcases List.mem_cons.mp hx with hx | hx
        · rw [hx]; rfl
        · exact hpre x hx
    | other =>
      simp only [updateFirstTable] at h
      cases hrec : updateFirstTable rest f with
      | error e => rw [hrec] at h; exact absurd h (by simp [Except.map])
      | ok l =>
        rw [hrec] at h
        simp only [Except.map] at h
        cases h
        obtain ⟨pre, g, g', rest', he, hpre, hf, hl⟩ := ih hrec
        refine ⟨Shape.other :: pre, g, g', rest', by simp [he], ?_, hf, by simp [hl]⟩
        intro x hx
        rcases List.mem_cons.mp hx with hx | hx
        · rw [hx]; rfl
        · exact hpre x hx

theorem updateNthChart_ok {shapes shapes' : List Shape} {n : ℕ}
    {f : ChartShape → ChartShape}
    (h : updateNthChart shapes n f = .ok shapes') :
    ∃ c, (chartsOf shapes).get? n = some c
      ∧ chartsOf shapes' = (chartsOf shapes).set n (f c) := by
  induction shapes generalizing shapes' n with
  | nil => exact absurd h (by simp [updateNthChart])
  | cons s rest ih =>
    cases s with
    | chart c =>
      cases n with
      | zero =>
        simp only [updateNthChart] at h
        cases h
        exact ⟨c, rfl, by simp [chartsOf, List.filterMap_cons, chartOf]⟩
      | succ m =>
        simp only [updateNthChart] at h
        cases hrec : updateNthChart rest m f with
        | error e => rw [hrec] at h; exact absurd h (by simp [Except.map])
        | ok l =>
          rw [hrec] at h
          simp only [Except.map] at h
          cases h
          obtain ⟨c', hc', hl⟩ := ih hrec
          exact ⟨c', by simpa [chartsOf, List.filterMap_cons, chartOf] using hc',
            by simp [chartsOf, List.filterMap_cons, chartOf] at hl ⊢; rw [hl]⟩
    | text t₀ =>
      simp only [updateNthChart] at h
      cases hrec : updateNthChart rest n f with
      | error e => rw [hrec] at h; exact absurd h (by simp [Except.map])
      | ok l =>
        rw [hrec] at h
        simp only [Except.map] at h
        cases h
        obtain ⟨c', hc', hl⟩ := ih hrec
        exact ⟨c', by simpa [chartsOf, List.filterMap_cons, chartOf] using hc',
          by simp [chartsOf, List.filterMap_cons, chartOf] at hl ⊢; rw [hl]⟩
    | table g =>
      simp only [updateNthChart] at h
      cases hrec : updateNthChart rest n f with
      | error e => rw [hrec] at h; exact absurd h (by simp [Except.map])
      | ok l =>
        rw [hrec] at h
        simp only [Except.map] at h
        cases h
        obtain ⟨c', hc', hl⟩ := ih hrec
        exact ⟨c', by simpa [chartsOf, List.filterMap_cons, chartOf] using hc',
          by simp [chartsOf, List.filterMap_cons, chartOf] at hl ⊢; rw [hl]⟩
    | other =>
      simp only [updateNthChart] at h
      cases hrec : updateNthChart rest n f with
      | error e => rw [hrec] at h; exact absurd h (by simp [Except.map])
      | ok l =>
        rw [hrec] at h
        simp only [Except.map] at h
        cases h
        obtain ⟨c', hc', hl⟩ := ih hrec
        exact ⟨c', by simpa [chartsOf, List.filterMap_cons, chartOf] using hc',
          by simp [chartsOf, List.filterMap_cons, chartOf] at hl ⊢; rw [hl]⟩

theorem nthChartE_ok {shapes : List Shape} {n : ℕ} {c : ChartShape}
    (h : nthChartE shapes n = .ok c) : (chartsOf shapes).get? n = some c := by
  unfold nthChartE at h
  cases hg : (chartsOf shapes).get? n with
  | none => rw [hg] at h; exact absurd h (by simp)
  | some c' => rw [hg] at h; cases h; rfl

theorem setCellT_get {g g' : TableGrid} {i j : ℕ} {v : String}
    (h : setCellT g i j v = .ok g') : getCellT g' i j = some v := by
  unfold setCellT at h
  split at h
  · exact absurd h (by simp)
  · rename_i r hr
    split at h
    · rename_i hj
      cases h
      have hi : i < g.rows.length := by
        rcases List.get?_eq_some.mp hr with ⟨hlt, _⟩
        exact hlt
      unfold getCellT
      simp only [lget_set_self hi, Option.bind_some]
      exact lget_set_self hj
    · exact absurd h (by simp)

theorem setCellT_get_ne {g g' : TableGrid} {i j : ℕ} {v : String} {i' j' : ℕ}
    (h : setCellT g i j v = .ok g') (hne : ¬(i' = i ∧ j' = j)) :
    getCellT g' i' j' = getCellT g i' j' := by
  unfold setCellT at h
  split at h
  · exact absurd h (by simp)
  · rename_i r hr
    split at h
    · rename_i hj
      cases h
      unfold getCellT
      by_cases hii : i' = i
      · subst hii
        have hj' : ¬ j' = j := fun hc => hne ⟨rfl, hc⟩
        have hi : i' < g.rows.length := by
          rcases List.get?_eq_some.mp hr with ⟨hlt, _⟩
          exact hlt
        simp only [lget_set_self hi, hr, Option.bind_some]
        exact lget_set_ne (fun hc => hj' hc.symm)
      · rw [lget_set_ne (fun hc => hii hc.symm)]
    · exact absurd h (by simp)

theorem runWrites_cons (g : TableGrid) (w : Write) (ws : List Write) :
    runWrites g (w :: ws) =
      match w.2.2 with
      | .error e => .error e
      | .ok v =>
        match setCellT g w.1 w.2.1 v with
        | .error e => .error e
        | .ok g' => runWrites g' ws := rfl

theorem runWrites_cons_ok {g g'' : TableGrid} {w : Write} {ws : List Write}
    (h : runWrites g (w :: ws) = .ok g'') :
    ∃ v g', w.2.2 = .ok v ∧ setCellT g w.1 w.2.1 v = .ok g' ∧ runWrites g' ws = .ok g'' := by
  rw [runWrites_cons] at h
  split at h
  · exact absurd h (by simp)
  · rename_i v hw
    split at h
    · exact absurd h (by simp)
    · rename_i g' hs
      exact ⟨v, g', hw, hs, h⟩

theorem runWrites_append_ok {g g'' : TableGrid} {ws₁ ws₂ : List Write}
    (h : runWrites g (ws₁ ++ ws₂) = .ok g'') :
    ∃ g₁, runWrites g ws₁ = .ok g₁ ∧ runWrites g₁ ws₂ = .ok g'' := by
  induction ws₁ generalizing g with
  | nil => exact ⟨g, rfl, h⟩
  | cons w ws ih =>
    rw [List.cons_append] at h
    obtain ⟨v, g', hw, hs, hrest⟩ := runWrites_cons_ok h
    obtain ⟨g₁, h₁, h₂⟩ := ih hrest
    refine ⟨g₁, ?_, h₂⟩
    simp only [runWrites_cons, hw, hs]
    exact h₁

theorem runWrites_preserve {g g' : TableGrid} {ws : List Write} {i j : ℕ}
    (h : runWrites g ws = .ok g')
    (hne : ∀ w ∈ ws, ¬(w.1 = i ∧ w.2.1 = j)) :
    getCellT g' i j = getCellT g i j := by
  induction ws generalizing g with
  | nil => cases h; rfl
  | cons w ws ih =>
    obtain ⟨v, g₁, hw, hs, hrest⟩ := runWrites_cons_ok h
    have hni : ¬(i = w.1 ∧ j = w.2.1) := by
      intro ⟨h1, h2⟩
      exact hne w (by simp) ⟨h1.symm, h2.symm⟩
    rw [ih hrest (fun x hm => hne x (by simp [hm]))]
    exact setCellT_get_ne hs hni

theorem mem_rangeWrites {w : Write} {f : ℕ → List Write} {n : ℕ}
    (h : w ∈ rangeWrites f n) : ∃ k, k < n ∧ w ∈ f k := by
  induction n with
  | zero => simp [rangeWrites] at h
  | succ m ih =>
    rw [rangeWrites] at h
    rcases List.mem_append.mp h with h | h
    · obtain ⟨k, hk, hm⟩ := ih h
      exact ⟨k, Nat.lt_succ_of_lt hk, hm⟩
    · exact ⟨m, Nat.lt_succ_self m, h⟩

theorem mem_rowWrites {w : Write} {r m : ℕ} {ev : ℕ → Except PErr String}
    (h : w ∈ rowWrites r m ev) : w.1 = r ∧ w.2.1 < m := by
  obtain ⟨k, hk, hm⟩ := mem_rangeWrites h
  rcases List.mem_singleton.mp hm with rfl
  exact ⟨rfl, hk⟩

theorem rowWrites_get {g g' : TableGrid} {r m : ℕ} {ev : ℕ → Except PErr String}
    (h : runWrites g (rowWrites r m ev) = .ok g') {j : ℕ} (hj : j < m) :
    ∃ v, ev j = .ok v ∧ getCellT g' r j = some v := by
  induction m generalizing g' with
  | zero => exact absurd hj (Nat.not_lt_zero j)
  | succ m ih =>
    rw [rowWrites, rangeWrites] at h
    obtain ⟨g₁, h₁, h₂⟩ := runWrites_append_ok h
    obtain ⟨v, g₂, hw, hs, hrest⟩ := runWrites_cons_ok h₂
    cases hrest
    rcases Nat.lt_succ_iff_lt_or_eq.mp hj with hj' | rfl
    · obtain ⟨v', hv', hget⟩ := ih h₁ hj'
      refine ⟨v', hv', ?_⟩
      rw [← hget]
      exact setCellT_get_ne hs (by simp; omega)
    · exact ⟨v, hw, setCellT_get hs⟩

theorem rowWrites_preserve {g g' : TableGrid} {r m : ℕ} {ev : ℕ → Except PErr String}
    (h : runWrites g (rowWrites r m ev) = .ok g') {i j : ℕ} (hi : i ≠ r) :
    getCellT g' i j = getCellT g i j :=
  runWrites_preserve h (fun w hw hc => hi ((mem_rowWrites hw).1 ▸ hc.1 ▸ rfl))

theorem blocksWrites_get {g g' : TableGrid} {n m : ℕ}
    {ev : ℕ → ℕ → Except PErr String}
    (h : runWrites g (rangeWrites (fun k => rowWrites (k + 1) m (ev k)) n) = .ok g')
    {k j : ℕ} (hk : k < n) (hj : j < m) :
    ∃ v, ev k j = .ok v ∧ getCellT g' (k + 1) j = some v := by
  induction n generalizing g' with
  | zero => exact absurd hk (Nat.not_lt_zero k)
  | succ n ih =>
    rw [rangeWrites] at h
    obtain ⟨g₁, h₁, h₂⟩ := runWrites_append_ok h
    rcases Nat.lt_succ_iff_lt_or_eq.mp hk with hk' | rfl
    · obtain ⟨v, hv, hget⟩ := ih h₁ hk'
      refine ⟨v, hv, ?_⟩
      rw [← hget]
      exact rowWrites_preserve h₂ (by omega)
    · exact rowWrites_get h₂ hj

theorem blocksWrites_preserve {g g' : TableGrid} {n m : ℕ}
    {ev : ℕ → ℕ → Except PErr String}
    (h : runWrites g (rangeWrites (fun k => rowWrites (k + 1) m (ev k)) n) = .ok g')
    {i j : ℕ} (hi : i = 0 ∨ n < i) :
    getCellT g' i j = getCellT g i j := by
  refine runWrites_preserve h (fun w hw hc => ?_)
  obtain ⟨k, hk, hm⟩ := mem_rangeWrites hw
  have hw1 : w.1 = k + 1 := (mem_rowWrites hm).1
  have h1 := hc.1
  rcases hi with rfl | hi <;> omega

theorem getSlideE_ok {p : Pres} {n : ℕ} {s : Slide}
    (h : getSlideE p n = .ok s) : p.slides.get? n = some s := by
  unfold getSlideE at h
  split at h
  · rename_i s' hs
    cases h
    exact hs
  · exact absurd h (by simp)

theorem setSlide_get_self {p : Pres} {n : ℕ} {s : Slide} {sh : List Shape}
    (h : p.slides.get? n = some s) :
    (setSlideShapes p n sh).slides.get? n = some ⟨sh⟩ := by
  have hn : n < p.slides.length := by
    rcases List.get?_eq_some.mp h with ⟨hlt, _⟩
    exact hlt
  exact lget_set_self hn

theorem setSlide_get_ne (p : Pres) (n : ℕ) (sh : List Shape) {m : ℕ} (h : n ≠ m) :
    (setSlideShapes p n sh).slides.get? m = p.slides.get? m :=
  lget_set_ne h

theorem squeezeGroup_single {dc : DataFrame} {g : String} {r : List Value}
    (hgc : "group" ∈ dc.columns)
    (hf : dc.rows.filter (groupMatches dc g) = [r]) :
    squeezeGroup dc g = .ok (dc.columns.zip r) := by
  unfold squeezeGroup
  rw [if_pos hgc, hf]

theorem sumColumn_num {cols : List String} {rows : List (List Value)} {j : ℕ}
    {qs : List ℚ}
    (hcol : rows.map (fun r => r.get? j) = qs.map (fun q => some (Value.num q))) :
    sumColumn ⟨cols, rows⟩ j = .ok qs.sum := by
  have aux : ∀ (rows : List (List Value)) (qs : List ℚ) (acc : ℚ),
      rows.map (fun r => r.get? j) = qs.map (fun q => some (Value.num q)) →
      List.foldlM (fun acc r =>
        match r.get? j with
        | none => Except.error PErr.indexError
        | some v => addValue acc v) acc rows = .ok (acc + qs.sum) := by
    intro rows
    induction rows with
    | nil =>
      intro qs acc hc
      cases qs with
      | nil => simp only [List.foldlM_nil, List.sum_nil, add_zero]; rfl
      | cons q qs => simp at hc
    | cons r rest ih =>
      intro qs acc hc
      cases qs with
      | nil => simp at hc
      | cons q qs =>
        simp only [List.map_cons, List.cons.injEq] at hc
        obtain ⟨h1, h2⟩ := hc
        simp only [List.foldlM_cons, h1]
        rw [show addValue acc (Value.num q) = Except.ok (acc + q) from rfl, okBind]
        rw [ih qs (acc + q) h2, List.sum_cons]
        congr 1
        ring
  have := aux rows qs 0 hcol
  unfold sumColumn
  simp only [this, zero_add]

theorem core_ok_parts {g : String} {dc dt : DataFrame} {pres p' : Pres} {msg : String}
    (h : edit_pres_core g dc dt (.ok pres) = .ok (p', msg)) :
    ∃ row s0 sh0 s1 sh1 s2 sh2,
      squeezeGroup dc g = .ok row
      ∧ pres.slides.get? 0 = some s0
      ∧ stageTitle g s0.shapes = .ok sh0
      ∧ (setSlideShapes pres 0 sh0).slides.get? 1 = some s1
      ∧ stageCharts g row s1.shapes = .ok sh1
      ∧ (setSlideShapes (setSlideShapes pres 0 sh0) 1 sh1).slides.get? 2 = some s2
      ∧ stageTable g dt s2.shapes = .ok sh2
      ∧ p' = setSlideShapes (setSlideShapes (setSlideShapes pres 0 sh0) 1 sh1) 2 sh2
      ∧ msg = "Successfully saved version " ++ g ++ "!" := by
  unfold edit_pres_core at h
  obtain ⟨row, hrow, h⟩ := exbind_ok h
  rw [okBind] at h
  obtain ⟨s0, hs0, h⟩ := exbind_ok h
  obtain ⟨sh0, hsh0, h⟩ := exbind_ok h
  obtain ⟨s1, hs1, h⟩ := exbind_ok h
  obtain ⟨sh1, hsh1, h⟩ := exbind_ok h
  obtain ⟨s2, hs2, h⟩ := exbind_ok h
  obtain ⟨sh2, hsh2, h⟩ := exbind_ok h
  have h' : (Except.ok (setSlideShapes (setSlideShapes (setSlideShapes pres 0 sh0) 1 sh1) 2 sh2,
      "Successfully saved version " ++ g ++ "!") : Except PErr (Pres × String)) = .ok (p', msg) := h
  rw [Except.ok.injEq, Prod.mk.injEq] at h'
  exact ⟨row, s0, sh0, s1, sh1, s2, sh2, hrow, getSlideE_ok hs0, hsh0,
    getSlideE_ok hs1, hsh1, getSlideE_ok hs2, hsh2, h'.1.symm, h'.2.symm⟩

theorem getSlideE_eq {p : Pres} {n : ℕ} {s : Slide} (h : p.slides.get? n = some s) :
    getSlideE p n = .ok s := by
  unfold getSlideE
  rw [h]

theorem core_ok_table {g : String} {dc dt : DataFrame} {pres p' : Pres} {msg : String}
    (h : edit_pres_core g dc dt (.ok pres) = .ok (p', msg)) :
    ∃ grid grid', runWrites grid (tableWrites dt) = .ok grid'
      ∧ ∀ i j, outputCell p' i j = getCellT grid' i j := by
  obtain ⟨row, s0, sh0, s1, sh1, s2, sh2, hrow, hs0, hsh0, hs1, hsh1, hs2, hsh2, hp', hmsg⟩ :=
    core_ok_parts h
  unfold stageTable at hsh2
  obtain ⟨shA, hA, hB⟩ := exbind_ok hsh2
  obtain ⟨pre, grid, grid', rest, hdecomp, hpre, hfg, hsh2'⟩ := updateFirstTable_ok hB
  refine ⟨grid, grid', hfg, fun i j => ?_⟩
  have hslides : p'.slides.get? 2 = some ⟨sh2⟩ := by
    rw [hp']
    exact setSlide_get_self hs2
  have hft : firstTable sh2 = some grid' := by
    rw [hsh2']
    exact firstTable_first hpre
  unfold outputCell
  rw [hslides]
  show (firstTable sh2).bind (fun g => getCellT g i j) = getCellT grid' i j
  rw [hft]
  rfl

/-- C1 — For every detail table with exactly 8 data rows and 5 columns whose
values are numeric, after a successful fill the output table's totals row
(row 9) at column `j`, for every `j` in 0..4, equals the arithmetic sum of
the 8 data-row values in column `j`, formatted with exactly one fractional
digit (`"{:.1f}"`). -/
theorem claim_C1_totals_row {g : String} {dc dt : DataFrame} {pres p' : Pres}
    {msg : String} {j : ℕ} {qs : List ℚ}
    (hlen : dt.rows.length = 8)
    (hcols : dt.columns.length = 5)
    (hj : j < 5)
    (hcol : dt.rows.map (fun r => r.get? j) = qs.map (fun q => some (Value.num q)))
    (hsucc : edit_pres_core g dc dt (.ok pres) = .ok (p', msg)) :
    outputCell p' 9 j = some (format1f qs.sum) := by
  obtain ⟨grid, grid', hrw, hcells⟩ := core_ok_table hsucc
  unfold tableWrites at hrw
  obtain ⟨g₁, hAB, hC⟩ := runWrites_append_ok hrw
  obtain ⟨v, hv, hget⟩ := rowWrites_get hC hj
  have hsum : sumColumn dt j = .ok qs.sum := @sumColumn_num dt.columns dt.rows j qs hcol
  rw [totalsEv, hsum] at hv
  have hvv : v = format1f qs.sum := by
    simp only [Except.map] at hv
    exact (Except.ok.injEq _ _).mp hv.symm
  rw [hcells 9 j, hget, hvv]

/-- C3 — For every detail table with 8 data rows and 5 columns, and for
every `i` in 1..8 and `j` in 0..4, the text written into the output table's
cell `(i, j)` equals the string conversion `str(value)` of the detail
table's source cell at row `i-1`, column `j` (positional indices, no
header-name lookup). -/
theorem claim_C3_data_cells {g : String} {dc dt : DataFrame} {pres p' : Pres}
    {msg : String} {i j : ℕ} {v : Value}
    (hlen : dt.rows.length = 8)
    (hcols : dt.columns.length = 5)
    (hi1 : 1 ≤ i) (hi8 : i ≤ 8) (hj : j < 5)
    (hval : iloc dt (i - 1) j = .ok v)
    (hsucc : edit_pres_core g dc dt (.ok pres) = .ok (p', msg)) :
    outputCell p' i j = some (pyStr v) := by
  obtain ⟨grid, grid', hrw, hcells⟩ := core_ok_table hsucc
  unfold tableWrites at hrw
  obtain ⟨g₁, hAB, hC⟩ := runWrites_append_ok hrw
  obtain ⟨gA, hA, hB⟩ := runWrites_append_ok hAB
  have hpresC : getCellT grid' i j = getCellT g₁ i j :=
    rowWrites_preserve hC (by omega)
  obtain ⟨v', hv', hget⟩ := blocksWrites_get hB (by omega : i - 1 < 8) hj
  rw [dataEv, hval] at hv'
  have hvv : v' = pyStr v := by
    simp only [Except.map] at hv'
    exact (Except.ok.injEq _ _).mp hv'.symm
  have hi' : i - 1 + 1 = i := by omega
  rw [hi'] at hget
  rw [hcells i j, hpresC, hget, hvv]

/-- C8 — For every detail table with 5 columns, the output table's header
row (row 0) at column `j`, for every `j` in 0..4, equals the fixed label
"Product " concatenated with the name of the detail table's `j`-th column,
in the dataset's column order. -/
theorem claim_C8_header_row {g : String} {dc dt : DataFrame} {pres p' : Pres}
    {msg : String} {j : ℕ} {c : String}
    (hcols : dt.columns.length = 5)
    (hj : j < 5)
    (hc : dt.columns.get? j = some c)
    (hsucc : edit_pres_core g dc dt (.ok pres) = .ok (p', msg)) :
    outputCell p' 0 j = some ("Product " ++ c) := by
  obtain ⟨grid, grid', hrw, hcells⟩ := core_ok_table hsucc
  unfold tableWrites at hrw
  obtain ⟨g₁, hAB, hC⟩ := runWrites_append_ok hrw
  obtain ⟨gA, hA, hB⟩ := runWrites_append_ok hAB
  have hpresC : getCellT grid' 0 j = getCellT g₁ 0 j :=
    rowWrites_preserve hC (by omega)
  have hpresB : getCellT g₁ 0 j = getCellT gA 0 j :=
    blocksWrites_preserve hB (Or.inl rfl)
  obtain ⟨v, hv, hget⟩ := rowWrites_get hA hj
  rw [headerEv, hc] at hv
  have hvv : v = "Product " ++ c := (Except.ok.injEq _ _).mp hv.symm
  rw [hcells 0 j, hpresC, hpresB, hget, hvv]

unseal Rat.add in
/-- Witness for C1 at the sample inputs: the totals cell of column 0 holds
the one-decimal rendering of the column sum (here 8, shown as "8.0"). -/
theorem claim_C1_totals_row_witness :
    outputCell sampleOutPres 9 0
        = some (format1f ([1, 1, 1, 1, 1, 1, 1, 1] : List ℚ).sum)
      ∧ format1f ([1, 1, 1, 1, 1, 1, 1, 1] : List ℚ).sum = "8.0" :=
  ⟨claim_C1_totals_row (by rfl) (by rfl) (by decide) (by rfl) sample_run_eq, by rfl⟩

/-- Witness for C3 at the sample inputs: output cell (3, 2) holds the
string rendering of source cell (2, 2). -/
theorem claim_C3_data_cells_witness :
    outputCell sampleOutPres 3 2 = some (pyStr (.num 1)) :=
  claim_C3_data_cells (by rfl) (by rfl) (by decide) (by decide) (by decide)
    (by rfl) sample_run_eq

/-- Witness for C8 at the sample inputs: header cell (0, 4) holds
"Product W". -/
theorem claim_C8_header_row_witness :
    outputCell sampleOutPres 0 4 = some ("Product " ++ "W") :=
  claim_C8_header_row (by rfl) (by decide) (by rfl) sample_run_eq

/-- C4 — For every chart dataset in which exactly one row has group
identifier equal to `group_id`, fill replaces the bar chart's data with
exactly 3 series over the 4 fixed categories "Category 1".."Category 4",
where series `k` (k = 1..3) takes its 4 values positionally from that
row's columns `cat1_k, cat2_k, cat3_k, cat4_k`, discarding the template's
placeholder data. -/
theorem claim_C4_bar_chart {g : String} {dc dt : DataFrame} {pres p' : Pres}
    {msg : String} {r : List Value}
    {v11 v21 v31 v41 v12 v22 v32 v42 v13 v23 v33 v43 : Value}
    (hgc : "group" ∈ dc.columns)
    (hfilter : dc.rows.filter (groupMatches dc g) = [r])
    (h11 : (dc.columns.zip r).lookup "cat1_1" = some v11)
    (h21 : (dc.columns.zip r).lookup "cat2_1" = some v21)
    (h31 : (dc.columns.zip r).lookup "cat3_1" = some v31)
    (h41 : (dc.columns.zip r).lookup "cat4_1" = some v41)
    (h12 : (dc.columns.zip r).lookup "cat1_2" = some v12)
    (h22 : (dc.columns.zip r).lookup "cat2_2" = some v22)
    (h32 : (dc.columns.zip r).lookup "cat3_2" = some v32)
    (h42 : (dc.columns.zip r).lookup "cat4_2" = some v42)
    (h13 : (dc.columns.zip r).lookup "cat1_3" = some v13)
    (h23 : (dc.columns.zip r).lookup "cat2_3" = some v23)
    (h33 : (dc.columns.zip r).lookup "cat3_3" = some v33)
    (h43 : (dc.columns.zip r).lookup "cat4_3" = some v43)
    (hsucc : edit_pres_core g dc dt (.ok pres) = .ok (p', msg)) :
    chartShapeAt p' 1 0
      = some ⟨["Category 1", "Category 2", "Category 3", "Category 4"],
          [("Series 1", [v11, v21, v31, v41]),
           ("Series 2", [v12, v22, v32, v42]),
           ("Series 3", [v13, v23, v33, v43])],
          "Sales by Category: Group " ++ g⟩ := by
  obtain ⟨row, s0, sh0, s1, sh1, s2, sh2, hrow, hs0, hsh0, hs1, hsh1, hs2, hsh2, hp', hmsg⟩ :=
    core_ok_parts hsucc
  rw [squeezeGroup_single hgc hfilter] at hrow
  have hrowe : row = dc.columns.zip r := by
    cases hrow
    rfl
  subst hrowe
  unfold stageCharts at hsh1
  obtain ⟨shA, hA, h⟩ := exbind_ok hsh1
  obtain ⟨c0, hc0, h⟩ := exbind_ok h
  have hv1 : seriesVals (dc.columns.zip r) ["cat1_1", "cat2_1", "cat3_1", "cat4_1"]
      = .ok [v11, v21, v31, v41] := by
    simp [seriesVals, h11, h21, h31, h41, Except.map]
  have hv2 : seriesVals (dc.columns.zip r) ["cat1_2", "cat2_2", "cat3_2", "cat4_2"]
      = .ok [v12, v22, v32, v42] := by
    simp [seriesVals, h12, h22, h32, h42, Except.map]
  have hv3 : seriesVals (dc.columns.zip r) ["cat1_3", "cat2_3", "cat3_3", "cat4_3"]
      = .ok [v13, v23, v33, v43] := by
    simp [seriesVals, h13, h23, h33, h43, Except.map]
  rw [hv1, okBind, hv2, okBind, hv3, okBind] at h
  obtain ⟨shB, hB, h⟩ := exbind_ok h
  obtain ⟨shC, hC, h⟩ := exbind_ok h
  obtain ⟨c1, hc1, h⟩ := exbind_ok h
  obtain ⟨vp, hvp, h⟩ := exbind_ok h
  obtain ⟨shD, hD, h⟩ := exbind_ok h
  obtain ⟨shE, hE, h⟩ := exbind_ok h
  have hsh1E : shE = sh1 := by
    cases h
    rfl
  subst hsh1E
  have hchA : chartsOf shA = chartsOf s1.shapes := setFirstText_chartsOf hA
  have hc0' : (chartsOf shA).get? 0 = some c0 := nthChartE_ok hc0
  have hlen0 : 0 < (chartsOf shA).length := (List.get?_eq_some.mp hc0').1
  obtain ⟨cB, hcB, hchB⟩ := updateNthChart_ok hB
  have hcBc0 : cB = c0 := by
    rw [hc0'] at hcB
    cases hcB
    rfl
  rw [hcBc0] at hchB
  obtain ⟨cC, hcC, hchC⟩ := updateNthChart_ok hC
  have hgetB : (chartsOf shB).get? 0 = some (replaceData c0
      (addSeries (addSeries (addSeries
        ⟨(List.range 4).map (fun i => "Category " ++ toString (i + 1)), []⟩
        "Series 1" [v11, v21, v31, v41]) "Series 2" [v12, v22, v32, v42])
        "Series 3" [v13, v23, v33, v43])) := by
    rw [hchB]
    exact lget_set_self hlen0
  have hcCe : cC = replaceData c0
      (addSeries (addSeries (addSeries
        ⟨(List.range 4).map (fun i => "Category " ++ toString (i + 1)), []⟩
        "Series 1" [v11, v21, v31, v41]) "Series 2" [v12, v22, v32, v42])
        "Series 3" [v13, v23, v33, v43]) := by
    rw [hgetB] at hcC
    cases hcC
    rfl
  subst hcCe
  obtain ⟨cD, hcD, hchD⟩ := updateNthChart_ok hD
  obtain ⟨cE, hcE, hchE⟩ := updateNthChart_ok hE
  have hslide1 : p'.slides.get? 1 = some ⟨shE⟩ := by
    rw [hp']
    rw [setSlide_get_ne _ _ _ (by decide)]
    exact setSlide_get_self hs1
  unfold chartShapeAt
  rw [hslide1]
  show (chartsOf shE).get? 0 = _
  have hcD1 : (chartsOf shE).get? 0 = (chartsOf shC).get? 0 := by
    rw [hchE, hchD]
    rw [lget_set_ne (by decide), lget_set_ne (by decide)]
  rw [hcD1, hchC, hchB, List.set_set]
  rw [lget_set_self hlen0]
  simp [replaceData, addSeries]
  decide

/-- Witness for C4 at the sample inputs: the bar chart of the output's
chart slide carries exactly the three series built from the sample row. -/
theorem claim_C4_bar_chart_witness :
    chartShapeAt sampleOutPres 1 0
      = some ⟨["Category 1", "Category 2", "Category 3", "Category 4"],
          [("Series 1", [.num 10, .num 20, .num 30, .num 40]),
           ("Series 2", [.num 11, .num 21, .num 31, .num 41]),
           ("Series 3", [.num 12, .num 22, .num 32, .num 42])],
          "Sales by Category: Group " ++ "A"⟩ :=
  claim_C4_bar_chart (by decide) (by rfl) (by rfl) (by rfl) (by rfl) (by rfl)
    (by rfl) (by rfl) (by rfl) (by rfl) (by rfl) (by rfl) (by rfl) (by rfl)
    sample_run_eq

/-- C2 — the claim says the pie chart receives exactly 1 series (from
columns `pie1..pie4`).  The code reuses the bar chart's
`CategoryChartData` object (line 47 mutates its categories, line 48
appends a fourth series), so `replace_data` on the pie chart receives
FOUR series — the three bar series first, the pie series last — and a
pie chart renders its first series, i.e. the `cat*_1` values.  This
theorem evaluates the embedded program on the sample inputs and exhibits
the four series. -/
theorem claim_C2_pie_reuse :
    ∃ p' msg c, edit_pres_core "A" sampleChartDF sampleTableDF (.ok samplePres)
        = .ok (p', msg)
      ∧ chartShapeAt p' 1 1 = some c
      ∧ c.categories = ["1st Qtr", "2nd Qtr", "3rd Qtr", "4th Qtr"]
      ∧ c.series = [("Series 1", [.num 10, .num 20, .num 30, .num 40]),
                    ("Series 2", [.num 11, .num 21, .num 31, .num 41]),
                    ("Series 3", [.num 12, .num 22, .num 32, .num 42]),
                    ("Series 1", [.num 1, .num 2, .num 3, .num 4])]
      ∧ c.series.length ≠ 1 :=
  ⟨sampleOutPres, "Successfully saved version A!",
    ⟨["1st Qtr", "2nd Qtr", "3rd Qtr", "4th Qtr"],
     [("Series 1", [.num 10, .num 20, .num 30, .num 40]),
      ("Series 2", [.num 11, .num 21, .num 31, .num 41]),
      ("Series 3", [.num 12, .num 22, .num 32, .num 42]),
      ("Series 1", [.num 1, .num 2, .num 3, .num 4])],
     "Sales by Quarter: Group A"⟩,
    sample_run_eq, rfl, rfl, rfl, by decide⟩

/-- C5 — For every template in which no shape with a text frame on the
relevant slide contains the marker substring ("Presentation title" or
"Subtitle" on slide 0, "Chart" on slide 1, "Table" on slide 2), fill fails
with a missing-placeholder lookup error instead of completing; when a
shape does match, its entire text is replaced with the group-specific
string.  Each failure conjunct assumes the steps the source executes
before the failing lookup succeed; the last conjunct is the shared
replacement behaviour of all four marker lookups: the first matching
shape's whole text becomes the given string. -/
theorem claim_C5_placeholder_lookup {g : String} {dc dt : DataFrame} {pres : Pres}
    {row : Row} {s0 : Slide}
    (hrow : squeezeGroup dc g = .ok row)
    (hs0 : pres.slides.get? 0 = some s0) :
    (s0.shapes.filter (textMatches "Presentation title") = [] →
      edit_pres_core g dc dt (.ok pres) = .error (.noMatch "Presentation title"))
  ∧ (∀ sh0a, setFirstText s0.shapes "Presentation title"
        ("Presentation for Group " ++ g) = .ok sh0a →
      sh0a.filter (textMatches "Subtitle") = [] →
      edit_pres_core g dc dt (.ok pres) = .error (.noMatch "Subtitle"))
  ∧ (∀ sh0 s1, stageTitle g s0.shapes = .ok sh0 →
      pres.slides.get? 1 = some s1 →
      s1.shapes.filter (textMatches "Chart") = [] →
      edit_pres_core g dc dt (.ok pres) = .error (.noMatch "Chart"))
  ∧ (∀ sh0 s1 sh1 s2, stageTitle g s0.shapes = .ok sh0 →
      pres.slides.get? 1 = some s1 →
      stageCharts g row s1.shapes = .ok sh1 →
      pres.slides.get? 2 = some s2 →
      s2.shapes.filter (textMatches "Table") = [] →
      edit_pres_core g dc dt (.ok pres) = .error (.noMatch "Table"))
  ∧ (∀ marker t' pre s₀ rest,
      (∀ s ∈ pre, textMatches marker s = false) →
      textMatches marker s₀ = true →
      setFirstText (pre ++ s₀ :: rest) marker t' = .ok (pre ++ Shape.text t' :: rest)) := by
  refine ⟨?_, ?_, ?_, ?_, ?_⟩
  · intro hfilt
    simp only [edit_pres_core, stageTitle, hrow, okBind, getSlideE_eq hs0,
      setFirstText_none hfilt, errBind]
  · intro sh0a hA hfilt
    simp only [edit_pres_core, stageTitle, hrow, okBind, getSlideE_eq hs0, hA,
      setFirstText_none hfilt, errBind]
  · intro sh0 s1 hst hs1 hfilt
    have hs1' : (setSlideShapes pres 0 sh0).slides.get? 1 = some s1 := by
      rw [setSlide_get_ne _ _ _ (by decide)]
      exact hs1
    simp only [edit_pres_core, stageCharts, hrow, okBind, getSlideE_eq hs0, hst,
      getSlideE_eq hs1', setFirstText_none hfilt, errBind]
  · intro sh0 s1 sh1 s2 hst hs1 hsc hs2 hfilt
    have hs1' : (setSlideShapes pres 0 sh0).slides.get? 1 = some s1 := by
      rw [setSlide_get_ne _ _ _ (by decide)]
      exact hs1
    have hs2' : (setSlideShapes (setSlideShapes pres 0 sh0) 1 sh1).slides.get? 2 = some s2 := by
      rw [setSlide_get_ne _ _ _ (by decide), setSlide_get_ne _ _ _ (by decide)]
      exact hs2
    simp only [edit_pres_core, stageTable, hrow, okBind, getSlideE_eq hs0, hst,
      getSlideE_eq hs1', hsc, getSlideE_eq hs2', setFirstText_none hfilt, errBind]
  · intro marker t' pre s₀ rest hpre hs
    exact setFirstText_first hpre hs

/-- Witness for C5: the placeholder-lookup contract instantiated at the
sample inputs. -/
theorem claim_C5_placeholder_lookup_witness :
    (((⟨[.text "Presentation title", .text "Subtitle"]⟩ : Slide).shapes).filter
        (textMatches "Presentation title") = [] →
      edit_pres_core "A" sampleChartDF sampleTableDF (.ok samplePres)
        = .error (.noMatch "Presentation title"))
  ∧ (∀ sh0a, setFirstText (⟨[.text "Presentation title", .text "Subtitle"]⟩ : Slide).shapes
        "Presentation title" ("Presentation for Group " ++ "A") = .ok sh0a →
      sh0a.filter (textMatches "Subtitle") = [] →
      edit_pres_core "A" sampleChartDF sampleTableDF (.ok samplePres)
        = .error (.noMatch "Subtitle"))
  ∧ (∀ sh0 s1, stageTitle "A" (⟨[.text "Presentation title", .text "Subtitle"]⟩ : Slide).shapes
        = .ok sh0 →
      samplePres.slides.get? 1 = some s1 →
      s1.shapes.filter (textMatches "Chart") = [] →
      edit_pres_core "A" sampleChartDF sampleTableDF (.ok samplePres)
        = .error (.noMatch "Chart"))
  ∧ (∀ sh0 s1 sh1 s2, stageTitle "A" (⟨[.text "Presentation title", .text "Subtitle"]⟩ : Slide).shapes
        = .ok sh0 →
      samplePres.slides.get? 1 = some s1 →
      stageCharts "A" sampleRow s1.shapes = .ok sh1 →
      samplePres.slides.get? 2 = some s2 →
      s2.shapes.filter (textMatches "Table") = [] →
      edit_pres_core "A" sampleChartDF sampleTableDF (.ok samplePres)
        = .error (.noMatch "Table"))
  ∧ (∀ marker t' pre s₀ rest,
      (∀ s ∈ pre, textMatches marker s = false) →
      textMatches marker s₀ = true →
      setFirstText (pre ++ s₀ :: rest) marker t' = .ok (pre ++ Shape.text t' :: rest)) :=
  claim_C5_placeholder_lookup (by rfl) (by rfl)

/-- C9 — For every slide on which two or more text-frame shapes contain
the marker substring, fill does not fail on the ambiguity: it overwrites
only the first matching shape in the slide's shape order (replacing its
entire text) and leaves the other matching shapes' text unchanged.  The
slide's shapes are written as `pre ++ s₀ :: rest`, with `s₀` the first
match; the conclusion returns `pre` and `rest` verbatim, so every other
shape — the further matches in `rest` included — is untouched. -/
theorem claim_C9_first_match_only {marker t : String} {pre : List Shape}
    {s₀ : Shape} {rest : List Shape}
    (hpre : ∀ s ∈ pre, textMatches marker s = false)
    (hs : textMatches marker s₀ = true)
    (hamb : rest.any (textMatches marker) = true) :
    setFirstText (pre ++ s₀ :: rest) marker t = .ok (pre ++ Shape.text t :: rest) :=
  setFirstText_first hpre hs

/-- Witness for C9: a slide holding two shapes whose text contains
"Chart"; the first is overwritten, the second kept. -/
theorem claim_C9_first_match_only_witness :
    setFirstText ([Shape.other, Shape.text "no marker"]
        ++ Shape.text "first Chart title" :: [Shape.text "second Chart title"])
      "Chart" "Financial Results Summary for Group A"
      = .ok ([Shape.other, Shape.text "no marker"]
          ++ Shape.text "Financial Results Summary for Group A"
            :: [Shape.text "second Chart title"]) :=
  claim_C9_first_match_only (by decide) (by decide) (by decide)

/-- C7 — Running fill twice with identical inputs (same group, chart
dataset, detail table and input template path) produces equivalent output
content: the returned message is equal and the file stored at the output
path is equal — the output is a deterministic function of the inputs,
since the template is loaded fresh from the input path on each call (the
first run's write cannot alter the second run's read when the output path
differs from the input path). -/
theorem claim_C7_deterministic {g : String} {dc dt : DataFrame}
    {inf outf : String} {fs : FS} (hne : inf ≠ outf) :
    (edit_presFS g dc dt inf outf (edit_presFS g dc dt inf outf fs).1).2
      = (edit_presFS g dc dt inf outf fs).2
  ∧ (edit_presFS g dc dt inf outf (edit_presFS g dc dt inf outf fs).1).1 outf
      = (edit_presFS g dc dt inf outf fs).1 outf := by
  cases hcore : edit_pres_core g dc dt (readFS fs inf) with
  | error e =>
    have h1 : edit_presFS g dc dt inf outf fs = (fs, .error e) := by
      unfold edit_presFS
      rw [hcore]
    rw [h1]
    show (edit_presFS g dc dt inf outf fs).2 = _ ∧ (edit_presFS g dc dt inf outf fs).1 outf = _
    rw [h1]
    exact ⟨rfl, rfl⟩
  | ok pm =>
    obtain ⟨p, m⟩ := pm
    have h1 : edit_presFS g dc dt inf outf fs = (writeFS fs outf p, .ok m) := by
      unfold edit_presFS
      rw [hcore]
    have hread : readFS (writeFS fs outf p) inf = readFS fs inf := by
      unfold readFS writeFS
      rw [if_neg hne]
    have h2 : edit_presFS g dc dt inf outf (writeFS fs outf p)
        = (writeFS (writeFS fs outf p) outf p, .ok m) := by
      unfold edit_presFS
      rw [hread, hcore]
    rw [h1]
    show (edit_presFS g dc dt inf outf (writeFS fs outf p)).2 = Except.ok m
      ∧ (edit_presFS g dc dt inf outf (writeFS fs outf p)).1 outf = writeFS fs outf p outf
    rw [h2]
    refine ⟨rfl, ?_⟩
    show writeFS (writeFS fs outf p) outf p outf = writeFS fs outf p outf
    unfold writeFS
    rw [if_pos rfl, if_pos rfl]

/-- Witness for C7 at the sample inputs (the driver's template and output
paths): message and stored output agree between the two runs. -/
theorem claim_C7_deterministic_witness :
    (edit_presFS "A" sampleChartDF sampleTableDF "templates/ppt-template.pptx"
        "outputs/results_group_A.pptx"
        (edit_presFS "A" sampleChartDF sampleTableDF "templates/ppt-template.pptx"
          "outputs/results_group_A.pptx" sampleFS).1).2
      = (edit_presFS "A" sampleChartDF sampleTableDF "templates/ppt-template.pptx"
          "outputs/results_group_A.pptx" sampleFS).2
  ∧ (edit_presFS "A" sampleChartDF sampleTableDF "templates/ppt-template.pptx"
        "outputs/results_group_A.pptx"
        (edit_presFS "A" sampleChartDF sampleTableDF "templates/ppt-template.pptx"
          "outputs/results_group_A.pptx" sampleFS).1).1 "outputs/results_group_A.pptx"
      = (edit_presFS "A" sampleChartDF sampleTableDF "templates/ppt-template.pptx"
          "outputs/results_group_A.pptx" sampleFS).1 "outputs/results_group_A.pptx" :=
  claim_C7_deterministic (by decide)

/-- C10 — For every input on which fill fails (missing group row, missing
placeholder shape, missing chart or table shape, out-of-range cell index,
a non-summable totals column, or a missing input file), the failure occurs
before the presentation is saved — `pres.save` (line 76) is the function's
final statement — so fill never creates or modifies the file at the output
path on error. -/
theorem claim_C10_no_write_on_error {g : String} {dc dt : DataFrame}
    {inf outf : String} {fs : FS}
    (herr : isErr (edit_presFS g dc dt inf outf fs).2 = true) :
    (edit_presFS g dc dt inf outf fs).1 outf = fs outf := by
  unfold edit_presFS at herr ⊢
  cases hcore : edit_pres_core g dc dt (readFS fs inf) with
  | error e => rfl
  | ok pm =>
    rw [hcore] at herr
    obtain ⟨p, m⟩ := pm
    exact absurd herr (by simp [isErr])

/-- Witness for C10: on an empty file system every run fails (the group
squeeze already errors on an empty chart dataset), and the output path is
untouched. -/
theorem claim_C10_no_write_on_error_witness :
    isErr (edit_presFS "A" emptyDF emptyDF "in.pptx" "out.pptx" fsEmpty).2 = true
  ∧ (edit_presFS "A" emptyDF emptyDF "in.pptx" "out.pptx" fsEmpty).1 "out.pptx"
      = fsEmpty "out.pptx" :=
  ⟨by rfl, claim_C10_no_write_on_error (by rfl)⟩

/-- C6 — For every group value present in the chart dataset for which the
loaded dataset mapping has no detail table named `table_<group>`,
processing that group fails with a lookup error (a `KeyError` on the
dataframes dict, raised before `edit_pres` is even called) and the file
system is returned unchanged: no output presentation with an empty table
is silently produced. -/
theorem claim_C6_missing_table {dfs : List (String × DataFrame)} {cdf : DataFrame}
    {g : String} {gs : List String} {fs : FS}
    (hgv : groupValues cdf = .ok gs)
    (hmem : g ∈ gs)
    (hmiss : dfs.lookup ("table_" ++ g) = none) :
    processGroup dfs cdf g fs = (fs, .error (.keyError ("table_" ++ g))) := by
  unfold processGroup
  rw [hmiss]

/-- Witness for C6: a dataframes dict holding only the chart dataset; the
group "A" appears in the chart dataset but `table_A` is absent. -/
theorem claim_C6_missing_table_witness :
    processGroup [("chart_df", sampleChartDF)] sampleChartDF "A" sampleFS
      = (sampleFS, .error (.keyError ("table_" ++ "A"))) :=
  @claim_C6_missing_table [("chart_df", sampleChartDF)] sampleChartDF "A" ["A"] sampleFS
    (by rfl) (by decide) (by rfl)
